import Mathlib

/-!
Shallow embedding of the extraction engine of the telegram-tracking-bot
repository (src/scraper.py and src/config.py) and proofs about the claims
of its specification.

Modelling conventions:
* Python strings are Lean `String`; character-level operations are defined
  on `List Char` (ASCII case mapping only; the source data relevant to the
  claims is ASCII apart from literal Turkish text, which is already
  lower-case where the code lowers it).
* Python `float` values arising from price parsing are modelled as `ℚ`
  (every parsed price in the claims is a short decimal literal, exactly
  representable).
* `requests`/network effects are modelled by an explicit script of network
  outcomes consumed per issued GET, and the list of user-agent strings of
  the issued requests is returned so that request counts are observable.
* BeautifulSoup documents are modelled as an oracle of selector-query
  results (`Document`): the embedding performs exactly the queries the
  source performs and reads their results from the oracle.
-/

/-- Does the list start with the given pattern? (`listStarts pat l`). -/
def listStarts : List Char → List Char → Bool
  | [], _ => true
  | _ :: _, [] => false
  | a :: as, b :: bs => a == b && listStarts as bs

/-- Is `pat` a contiguous run inside `l`?  Models the Python `in` test on
strings. -/
def listInfix (pat : List Char) : List Char → Bool
  | [] => listStarts pat []
  | c :: rest => listStarts pat (c :: rest) || listInfix pat rest

/-- Python `sub in s` for strings. -/
def strContains (s sub : String) : Bool :=
  listInfix sub.data s.data

/-- Python `s.lower()` (ASCII case mapping). -/
def strLower (s : String) : String :=
  String.mk (s.data.map Char.toLower)

/-- Python `s.capitalize()`: first character upper-cased, the rest
lower-cased. -/
def pyCapitalize (s : String) : String :=
  match s.data with
  | [] => ""
  | c :: cs => String.mk (c.toUpper :: cs.map Char.toLower)

/-- Helper for `pyTitle`: the flag records whether the previous character
was alphabetic. -/
def pyTitleAux : List Char → Bool → List Char
  | [], _ => []
  | c :: cs, prevAlpha =>
    (if c.isAlpha then (if prevAlpha then c.toLower else c.toUpper) else c)
      :: pyTitleAux cs c.isAlpha

/-- Python `s.title()`: each alphabetic run starts with an upper-case
letter, subsequent letters lower-cased. -/
def pyTitle (s : String) : String :=
  String.mk (pyTitleAux s.data false)

/-- Python `s.strip()`: whitespace removed from both ends. -/
def pyStrip (s : String) : String :=
  String.mk (((s.data.dropWhile Char.isWhitespace).reverse.dropWhile
    Char.isWhitespace).reverse)

/-- Python single-separator `s.split(sep)` on character lists. -/
def splitChar (sep : Char) : List Char → List (List Char)
  | [] => [[]]
  | c :: cs =>
    let r := splitChar sep cs
    if c == sep then [] :: r
    else
      match r with
      | h :: t => (c :: h) :: t
      | [] => [[c]]

/-- Python `s.split(sep)` for a one-character separator. -/
def strSplit (s : String) (sep : Char) : List String :=
  (splitChar sep s.data).map String.mk

/-- Python `s.endswith(suffix)`. -/
def strEndsWith (s suffix : String) : Bool :=
  listStarts suffix.data.reverse s.data.reverse

/-- Remove every occurrence of a character (Python
`s.replace(c, "")` for a one-character pattern). -/
def removeChar (c : Char) (s : String) : String :=
  String.mk (s.data.filter (fun d => d != c))

/-- Replace every occurrence of one character by another (Python
`s.replace(a, b)` for one-character strings). -/
def mapChar (a b : Char) (s : String) : String :=
  String.mk (s.data.map (fun d => if d == a then b else d))

/-- Multi-character replace on character lists, left to right,
non-overlapping (Python `s.replace(pat, repl)` for a non-empty pattern).
The extra fuel argument equals the length of the scanned list. -/
def listReplaceAux (pat repl : List Char) : List Char → Nat → List Char
  | _, 0 => []
  | [], _ + 1 => []
  | c :: cs, fuel + 1 =>
    if !pat.isEmpty && listStarts pat (c :: cs) then
      repl ++ listReplaceAux pat repl ((c :: cs).drop pat.length) fuel
    else
      c :: listReplaceAux pat repl cs fuel

/-- Python `s.replace(pat, repl)` for a non-empty pattern string. -/
def strReplace (s pat repl : String) : String :=
  String.mk (listReplaceAux pat.data repl.data s.data s.data.length)

/-- Python `" ".join(s.split())`: collapse whitespace runs to single
spaces, dropping leading and trailing whitespace. -/
def collapseWs (s : String) : String :=
  String.intercalate " "
    (((s.data.splitOnP Char.isWhitespace).map String.mk).filter
      (fun w => w != ""))

/-- Numeric value of a digit string. -/
def digitsToNat (l : List Char) : Nat :=
  l.foldl (fun n c => n * 10 + (c.toNat - '0'.toNat)) 0

/-- Unsigned part of the decimal-literal fragment accepted by Python
`float`: `digits`, `digits.digits`, `digits.`, or `.digits` (exponent,
underscore, infinity and nan forms are outside the model; no claim uses
them). -/
def parseUnsigned (l : List Char) : Option ℚ :=
  let p := l.span Char.isDigit
  match p.2 with
  | [] => if p.1.isEmpty then none else some (digitsToNat p.1)
  | '.' :: rest2 =>
    let q := rest2.span Char.isDigit
    if !q.2.isEmpty then none
    else if p.1.isEmpty && q.1.isEmpty then none
    else some ((digitsToNat p.1 : ℚ) +
      (digitsToNat q.1 : ℚ) / (10 : ℚ) ^ q.1.length)
  | _ => none

/-- Python `float(s)` on decimal literals: optional surrounding
whitespace, optional sign, then the unsigned fragment. `none` models a
raised ValueError. -/
def pyFloat (s : String) : Option ℚ :=
  let l := (s.data.dropWhile Char.isWhitespace).reverse.dropWhile
    Char.isWhitespace |>.reverse
  match l with
  | '+' :: r => parseUnsigned r
  | '-' :: r => (parseUnsigned r).map Neg.neg
  | r => parseUnsigned r

/-- First match of the regular expression `\d+(?:\.\d+)?`: the leftmost
maximal digit run, together with a following `.digits` part when present.
-/
def firstNumToken : List Char → Option (List Char)
  | [] => none
  | c :: cs =>
    if c.isDigit then
      let p := (c :: cs).span Char.isDigit
      match p.2 with
      | '.' :: r2 =>
        let q := r2.span Char.isDigit
        if q.1.isEmpty then some p.1 else some (p.1 ++ '.' :: q.1)
      | _ => some p.1
    else firstNumToken cs

/-- ProductScraper._clean_price (src/scraper.py lines 175-202): keep only
digits, dots and commas; remove every dot (thousands separator
convention); turn every comma into a dot; extract the first
`\d+(?:\.\d+)?` token and parse it. -/
def clean_price (s : String) : Option ℚ :=
  if s == "" then none
  else
    let l1 := s.data.filter (fun c => c.isDigit || c == '.' || c == ',')
    let l2 := (l1.filter (fun c => c != '.')).map
      (fun c => if c == ',' then '.' else c)
    match firstNumToken l2 with
    | none => none
    | some tok => pyFloat (String.mk tok)


/-! ## JSON values (the result of `json.loads` on a script block) -/

/-- Parsed JSON value. -/
inductive Json where
  | null
  | bool (b : Bool)
  | num (q : ℚ)
  | str (s : String)
  | arr (xs : List Json)
  | obj (kvs : List (String × Json))

/-- Python `d.get(key)` on a dict; `none` both when the key is missing
and when the value is not a dict (callers guard the latter with
`isinstance` checks wherever the source does). -/
def jget : Json → String → Option Json
  | Json.obj kvs, k => (kvs.find? (fun p => p.1 == k)).map (fun p => p.2)
  | _, _ => none

/-- Python truthiness of a JSON value. -/
def pyTruthy : Json → Bool
  | Json.null => false
  | Json.bool b => b
  | Json.num q => q != 0
  | Json.str s => s != ""
  | Json.arr xs => !xs.isEmpty
  | Json.obj kvs => !kvs.isEmpty

/-- Does the optional JSON value equal the given string?  Models Python
`value == "lit"` where the value came from `.get`/`[]`. -/
def isStrEq (o : Option Json) (lit : String) : Bool :=
  match o with
  | some (Json.str t) => t == lit
  | _ => false

/-- Python `key in value`: key containment for dicts, string membership
for lists, substring test for strings; a TypeError (modelled as the
error case) for the remaining shapes. -/
def pyIn (key : String) : Json → Except Unit Bool
  | Json.obj kvs => .ok (kvs.any (fun p => p.1 == key))
  | Json.arr xs => .ok (xs.any (fun x =>
      match x with
      | Json.str t => t == key
      | _ => false))
  | Json.str t => .ok (strContains t key)
  | _ => .error ()

/-- Python `value[key]` indexing with a string key: dict lookup (KeyError
when absent), TypeError otherwise — both modelled as the error case. -/
def jIndexE : Json → String → Except Unit Json
  | Json.obj kvs, k =>
    match (kvs.find? (fun p => p.1 == k)).map (fun p => p.2) with
    | some v => .ok v
    | none => .error ()
  | _, _ => .error ()

/-- Python `str(v)` for the JSON shapes that reach it in the source:
exact for strings, None and booleans; the decimal repr of numbers and
the bracketed repr of containers are not modelled (no claim touches
them). -/
def jsonToPyStr : Json → String
  | Json.str s => s
  | Json.null => "None"
  | Json.bool b => if b then "True" else "False"
  | _ => ""

/-- Python `float(v)` on a JSON value: numbers directly, booleans as 0/1,
strings through the decimal parser; `none` models the
ValueError/TypeError raised on every other shape. -/
def pyFloatOfJson : Json → Option ℚ
  | Json.num q => some q
  | Json.bool b => some (if b then 1 else 0)
  | Json.str s => pyFloat s
  | _ => none

/-! ## Documents (the BeautifulSoup oracle) -/

/-- A DOM element as observed by the source: its `.text`, its
`get("content")` attribute (multi-valued attributes are not modelled),
whether its tag name is `meta`, the truthiness of `get("disabled")`, and
the results of nested `select_one` queries. -/
inductive Element where
  | mk (text : String) (content : Option String) (isMeta : Bool)
       (disabled : Bool) (sub : List (String × Element))

/-- The element text (`elem.text`). -/
def Element.text : Element → String
  | .mk t _ _ _ _ => t

/-- The `content` attribute (`elem.get("content")`). -/
def Element.content : Element → Option String
  | .mk _ c _ _ _ => c

/-- Whether `elem.name == "meta"`. -/
def Element.isMeta : Element → Bool
  | .mk _ _ m _ _ => m

/-- Truthiness of `elem.get("disabled")`. -/
def Element.disabled : Element → Bool
  | .mk _ _ _ d _ => d

/-- Nested `elem.select_one(selector)`. -/
def Element.selOne : Element → String → Option Element
  | .mk _ _ _ _ sub, s => (sub.find? (fun p => p.1 == s)).map (fun p => p.2)

/-- A parsed page, as the oracle of exactly the queries the source
performs on a BeautifulSoup object. -/
structure Document where
  /-- `soup.select_one(selector)` -/
  sel : String → Option Element
  /-- `soup.select(selector)` (all matches) -/
  selAll : String → List Element
  /-- `soup.find_all("script", type="application/ld+json")`, each block
  already run through `json.loads`; `none` is a block whose parse raises
  (JSONDecodeError). -/
  scripts : List (Option Json)
  /-- `soup.get_text()` -/
  pageText : String
  /-- `soup.find_all(["button", "a"])` -/
  buttonsAndLinks : List Element
  /-- `soup.find("title")` -/
  titleTag : Option Element

/-- The normalized extraction record: a Python dict with keys `title`,
`price`, `in_stock`, each possibly None. -/
structure ProductInfo where
  title : Option String
  price : Option ℚ
  in_stock : Option Bool
deriving DecidableEq, Repr

/-! ## Configuration (src/config.py) -/

/-- One entry of the store registry. -/
structure Store where
  id : String
  name : String
  domain : String

/-- STORES (src/config.py lines 7-43). -/
def STORES : List Store :=
  [⟨"trendyol", "Trendyol", "trendyol.com"⟩,
   ⟨"hepsiburada", "Hepsiburada", "hepsiburada.com"⟩,
   ⟨"n11", "N11", "n11.com"⟩,
   ⟨"amazon", "Amazon", "amazon.com.tr"⟩,
   ⟨"teknosa", "Teknosa", "teknosa.com"⟩,
   ⟨"mediamarkt", "Media Markt", "mediamarkt.com.tr"⟩,
   ⟨"generic", "Diğer Site", ""⟩]

/-- GENERIC_STORE_ID (src/config.py line 71). -/
def GENERIC_STORE_ID : String := "generic"

/-- The user-agent pool of ProductScraper.__init__ (src/scraper.py lines
40-46). -/
def userAgents : List String :=
  ["Mozilla/5.0 (Windows NT 10.0; Win64; x64) AppleWebKit/537.36 (KHTML, like Gecko) Chrome/111.0.0.0 Safari/537.36",
   "Mozilla/5.0 (Macintosh; Intel Mac OS X 10_15_7) AppleWebKit/605.1.15 (KHTML, like Gecko) Version/16.4 Safari/605.1.15",
   "Mozilla/5.0 (Windows NT 10.0; Win64; x64) AppleWebKit/537.36 (KHTML, like Gecko) Chrome/111.0.0.0 Safari/537.36 Edg/111.0.1661.54",
   "Mozilla/5.0 (Windows NT 10.0; Win64; x64; rv:109.0) Gecko/20100101 Firefox/111.0",
   "Mozilla/5.0 (iPhone; CPU iPhone OS 16_4 like Mac OS X) AppleWebKit/605.1.15 (KHTML, like Gecko) CriOS/111.0.5563.101 Mobile/15E148 Safari/604.1"]

/-! ## URL helpers (urllib.parse.urlparse, restricted to what the source
reads) -/

/-- Drop everything up to and including the first occurrence of `pat`;
`none` when `pat` does not occur. -/
def dropAfterFirst (pat : List Char) : List Char → Option (List Char)
  | [] => if pat.isEmpty then some [] else none
  | c :: cs =>
    if listStarts pat (c :: cs) then some ((c :: cs).drop pat.length)
    else dropAfterFirst pat cs

/-- `urlparse(url).path` for the URL shapes the source handles: strip a
`scheme://netloc` head when present, then cut at the first `?` or `#`
(query-in-netloc corner cases are not modelled). -/
def pyUrlPath (url : String) : String :=
  match dropAfterFirst "://".data url.data with
  | some afterScheme =>
    String.mk ((afterScheme.dropWhile (fun c => c != '/')).takeWhile
      (fun c => c != '?' && c != '#'))
  | none =>
    String.mk (url.data.takeWhile (fun c => c != '?' && c != '#'))

/-- `url.split("/")[-1]`, the trailing segment used by the fallback
title. -/
def lastSlashSeg (url : String) : String :=
  (strSplit url '/').reverse.headD ""

/-! ## Per-site scrapers -/

/-- ProductScraper._scrape_trendyol (src/scraper.py lines 204-239). -/
def scrape_trendyol (soup : Document) (url : String) : ProductInfo :=
  let title_tag := (soup.sel "h1.pr-new-br").orElse
    (fun _ => soup.sel "h1.product-name")
  let title := title_tag.map (fun e => pyStrip e.text)
  let price_tag := (soup.sel ".prc-dsc").orElse
    (fun _ => soup.sel ".product-price")
  let price := price_tag.bind (fun e => clean_price e.text)
  let sold_out := (soup.sel ".pr-in-cn").orElse
    (fun _ => soup.sel ".soldOutProductCt")
  let add_to_cart := (soup.sel ".add-to-basket").orElse
    (fun _ => soup.sel ".add-to-cart")
  { title := title, price := price,
    in_stock := some (sold_out.isNone && add_to_cart.isSome) }

/-- ProductScraper._scrape_hepsiburada (src/scraper.py lines 241-276). -/
def scrape_hepsiburada (soup : Document) (url : String) : ProductInfo :=
  let title_tag := (soup.sel "h1.product-name").orElse
    (fun _ => soup.sel "h1[data-bind=\"markupText: product.name\"]")
  let title := title_tag.map (fun e => pyStrip e.text)
  let price_tag :=
    (soup.sel "[data-bind=\"markupText: product.price.currentPrice\"]").orElse
      (fun _ => soup.sel ".product-price")
  let price := price_tag.bind (fun e => clean_price e.text)
  let sold_out := (soup.sel ".product-status-text").orElse
    (fun _ => soup.sel ".out-of-stock-text")
  let add_to_cart := (soup.sel "#addToCart").orElse
    (fun _ => soup.sel ".add-to-cart")
  let soldOk :=
    match sold_out with
    | none => true
    | some e => !strContains (strLower e.text) "tükendi"
  { title := title, price := price,
    in_stock := some (soldOk && add_to_cart.isSome) }

/-- ProductScraper._scrape_n11 (src/scraper.py lines 278-315). -/
def scrape_n11 (soup : Document) (url : String) : ProductInfo :=
  let title_tag := (soup.sel "h1.proName").orElse
    (fun _ => soup.sel "h1.productName")
  let title := title_tag.map (fun e => pyStrip e.text)
  let price_tag := (soup.sel ".newPrice").orElse
    (fun _ => soup.sel ".price")
  let price := price_tag.bind (fun e =>
    let price_span := (e.selOne "ins").getD e
    clean_price price_span.text)
  let sold_out := (soup.sel ".unf-p-summary-out-of-stock").orElse
    (fun _ => soup.sel ".outOfStock")
  let add_to_cart := (soup.sel "#addBasket").orElse
    (fun _ => soup.sel ".btnAddBasket")
  { title := title, price := price,
    in_stock := some (sold_out.isNone && add_to_cart.isSome) }

/-- ProductScraper._scrape_amazon (src/scraper.py lines 317-353). -/
def scrape_amazon (soup : Document) (url : String) : ProductInfo :=
  let title := (soup.sel "#productTitle").map (fun e => pyStrip e.text)
  let price_tag := (soup.sel ".a-price .a-offscreen").orElse
    (fun _ => soup.sel "#priceblock_ourprice")
  let price := price_tag.bind (fun e => clean_price e.text)
  let in_stock :=
    match soup.sel "#availability" with
    | some availability =>
      strContains (strLower availability.text) "stokta" ||
        strContains (strLower availability.text) "in stock"
    | none => (soup.sel "#add-to-cart-button").isSome
  { title := title, price := price, in_stock := some in_stock }

/-! ## Pandora scraper (src/scraper.py lines 355-533) -/

/-- The URL-derived Pandora title: the first path segment at index `i > 0`
ending in `.html` supplies the product code, and the segment before it the
product name (src/scraper.py lines 375-387). -/
def pandoraUrlTitleAux : String → List String → Option String
  | prev, q :: rest =>
    if strEndsWith q ".html" then
      some (pyTitle (mapChar '_' ' ' (mapChar '-' ' ' prev)) ++ " " ++
        ((strSplit q '.').headD ""))
    else pandoraUrlTitleAux q rest
  | _, [] => none

/-- Entry point for the Pandora URL title scan. -/
def pandoraUrlTitle : List String → Option String
  | p :: rest => pandoraUrlTitleAux p rest
  | [] => none

/-- First present element of a candidate list (the shared
`for elem in candidates: if elem: ...; break` pattern). -/
def firstElem (cands : List (Option Element)) : Option Element :=
  cands.findSome? id

/-- Pandora title candidates (src/scraper.py lines 390-407): the first
present element wins; a meta element contributes its `content`
attribute, any other its stripped text. -/
def pandoraTitleCands (soup : Document) : Option (Option String) :=
  (firstElem
    [soup.sel "h1.product-name", soup.sel "h1.product-title",
     soup.sel "h1.pdp-title", soup.sel "h1[itemprop=\"name\"]",
     soup.sel "div.product-title h1",
     soup.sel "meta[property=\"og:title\"]",
     soup.sel "meta[name=\"title\"]"]).map
    (fun e => if e.isMeta then e.content else some (pyStrip e.text))

/-- First Pandora JSON-LD price loop (src/scraper.py lines 411-428).  The
try block surrounds the whole loop and catches only JSONDecodeError and
AttributeError, so a malformed block stops the scan (price stays unset)
while a TypeError — modelled as the error case — escapes to the outer
handler. -/
def pandoraJsonPrice1 : List (Option Json) → Except Unit (Option ℚ)
  | [] => .ok none
  | none :: _ => .ok none
  | some j :: rest => do
    let b1 ← pyIn "@type" j
    if b1 then
      let tv ← jIndexE j "@type"
      if isStrEq (some tv) "Product" then
        let b2 ← pyIn "offers" j
        if b2 then
          let offers ← jIndexE j "offers"
          match offers with
          | Json.obj _ =>
            match jget offers "price" with
            | some p =>
              if pyTruthy p then
                match pyFloatOfJson p with
                | some q => pure (some q)
                | none =>
                  match clean_price (jsonToPyStr p) with
                  | some q => pure (some q)
                  | none => pandoraJsonPrice1 rest
              else pandoraJsonPrice1 rest
            | none => pandoraJsonPrice1 rest
          | _ => pandoraJsonPrice1 rest
        else pandoraJsonPrice1 rest
      else pandoraJsonPrice1 rest
    else pandoraJsonPrice1 rest

/-- Shared price-candidate loop with Turkish-lira stripping, used by the
Pandora and Rossmann scrapers (src/scraper.py lines 446-459 and
602-616): currency markers removed, dots dropped, commas turned into
dots, then the price normalizer; the first successful parse wins.  A
meta element without a `content` attribute is skipped (its value is not
a string). -/
def tlPriceCands : List (Option Element) → Option ℚ
  | [] => none
  | none :: rest => tlPriceCands rest
  | some e :: rest =>
    let ptext : Option String :=
      if e.isMeta then e.content else some (pyStrip e.text)
    match ptext with
    | none => tlPriceCands rest
    | some t =>
      let t1 := strReplace (strReplace (strReplace t "TL" "") "₺" "") "TRY" ""
      let t2 := pyStrip (mapChar ',' '.' (removeChar '.' t1))
      match clean_price t2 with
      | some q => some q
      | none => tlPriceCands rest

/-- Accepted @type values of the second Pandora JSON-LD scan. -/
def pandoraTypeOk (tv : Json) : Bool :=
  match tv with
  | Json.str t => t == "Product" || t == "JewelryStore" || t == "Offer"
  | _ => false

/-- Scan of a @graph list for a typed entity (src/scraper.py lines
469-473); a non-container item raises a TypeError, caught at the script
level. -/
def pandoraGraphScan : List Json → Except Unit (Option Json)
  | [] => .ok none
  | it :: rest => do
    let b ← pyIn "@type" it
    if b then
      let tv ← jIndexE it "@type"
      if pandoraTypeOk tv then pure (some it) else pandoraGraphScan rest
    else pandoraGraphScan rest

/-- One script of the second Pandora JSON-LD scan (src/scraper.py lines
462-475): the boolean result records whether the outer loop breaks.  A
match found inside a @graph list does not break the outer loop (the
source has no outer break there).  Errors are JSONDecodeError/TypeError,
caught by this script's own handler. -/
def pandoraScan2Step (j : Json) (acc : Option Json) :
    Except Unit (Option Json × Bool) := do
  let b1 ← pyIn "@type" j
  let condA ←
    if b1 then do
      let tv ← jIndexE j "@type"
      pure (pandoraTypeOk tv)
    else pure false
  if condA then pure (some j, true)
  else do
    let b2 ← pyIn "@graph" j
    if b2 then
      let g ← jIndexE j "@graph"
      match g with
      | Json.arr items => do
        let r ← pandoraGraphScan items
        match r with
        | some it => pure (some it, false)
        | none => pure (acc, false)
      | Json.str _ => pure (acc, false)
      | Json.obj _ => pure (acc, false)
      | _ => .error ()
    else pure (acc, false)

/-- Second Pandora JSON-LD scan over all script blocks. -/
def pandoraScan2 : List (Option Json) → Option Json → Option Json
  | [], acc => acc
  | none :: rest, acc => pandoraScan2 rest acc
  | some j :: rest, acc =>
    match pandoraScan2Step j acc with
    | .error _ => pandoraScan2 rest acc
    | .ok (acc2, brk) => if brk then acc2 else pandoraScan2 rest acc2

/-- Price stage on the found JSON-LD entity (src/scraper.py lines
479-484); `float` is called without a handler here, so its failure —
and any TypeError from the `in` tests — aborts the scraper with the
partial result. -/
def pandoraJdPrice (jd : Json) (price0 : Option ℚ) :
    Except Unit (Option ℚ) :=
  let priceFalsy := match price0 with | none => true | some q => q == 0
  if !priceFalsy then pure price0
  else do
    let b ← pyIn "offers" jd
    if b then
      let offers ← jIndexE jd "offers"
      match offers with
      | Json.obj _ =>
        match jget offers "price" with
        | some pv =>
          match pyFloatOfJson pv with
          | some q => pure (some q)
          | none => .error ()
        | none => pure price0
      | Json.arr (o :: _) => do
        let bp ← pyIn "price" o
        if bp then
          let pv ← jIndexE o "price"
          match pyFloatOfJson pv with
          | some q => pure (some q)
          | none => .error ()
        else pure price0
      | _ => pure price0
    else pure price0

/-- Availability stage on the found JSON-LD entity (src/scraper.py lines
487-492). -/
def pandoraJdStock (jd : Json) (stock0 : Option Bool) :
    Except Unit (Option Bool) := do
  let b ← pyIn "offers" jd
  if b then
    let offers ← jIndexE jd "offers"
    match offers with
    | Json.obj _ =>
      match jget offers "availability" with
      | some av => do
        let r ← pyIn "InStock" av
        pure (some r)
      | none => pure stock0
    | Json.arr (o :: _) => do
      let ba ← pyIn "availability" o
      if ba then
        let av ← jIndexE o "availability"
        let r ← pyIn "InStock" av
        pure (some r)
      else pure stock0
    | _ => pure stock0
  else pure stock0

/-- Enabled add-to-cart button test of the Pandora stock block
(src/scraper.py lines 497-509). -/
def pandoraAddToCart (soup : Document) : Bool :=
  ["button.add-to-cart", "button.add-to-bag", "button.add-to-basket",
   "button.pdp-button",
   "button[data-button-action=\"add-to-cart\"]"].any
    (fun s =>
      match soup.sel s with
      | some b => !b.disabled
      | none => false)

/-- Out-of-stock message test of the Pandora stock block (src/scraper.py
lines 512-524). -/
def pandoraOutOfStock (soup : Document) : Bool :=
  [".product-availability", ".stock-availability", ".pdp-availability",
   ".availability", ".stock-status"].any
    (fun s =>
      match soup.sel s with
      | some e =>
        ["sold out", "out of stock", "tükendi", "stokta yok"].any
          (fun t => strContains (strLower e.text) t)
      | none => false)

/-- ProductScraper._scrape_pandora (src/scraper.py lines 355-533).  The
whole body sits in a try/except that logs and returns the partial result,
so every modelled exception path yields the fields assigned so far. -/
def scrape_pandora (soup : Document) (url : String) : ProductInfo :=
  let parts := strSplit (pyUrlPath url) '/'
  let t0 := pandoraUrlTitle parts
  let t1 :=
    match pandoraTitleCands soup with
    | some newT => newT
    | none => t0
  match pandoraJsonPrice1 soup.scripts with
  | .error _ => ⟨t1, none, some false⟩
  | .ok p1 =>
    let p2 :=
      match p1 with
      | none =>
        tlPriceCands
          [soup.sel "span.price-sales", soup.sel "span.current-price",
           soup.sel "span.product-price", soup.sel "div.product-price span",
           soup.sel "[itemprop=\"price\"]", soup.sel "p.price",
           soup.sel ".product-price", soup.sel ".price-container .price",
           soup.sel "meta[property=\"product:price:amount\"]",
           soup.sel "meta[property=\"og:price:amount\"]"]
      | some q => some q
    match pandoraScan2 soup.scripts none with
    | none => pandoraStockFinish soup t1 p2 (some false)
    | some jd =>
      match pandoraJdPrice jd p2 with
      | .error _ => ⟨t1, p2, some false⟩
      | .ok p3 =>
        match pandoraJdStock jd (some false) with
        | .error _ => ⟨t1, p3, some false⟩
        | .ok st0 => pandoraStockFinish soup t1 p3 st0
where
  /-- Selector stock block and the price-implies-stock fallback
  (src/scraper.py lines 495-528). -/
  pandoraStockFinish (soup : Document) (t : Option String) (p : Option ℚ)
      (st0 : Option Bool) : ProductInfo :=
    let st1 :=
      if st0 == some false then
        let withAdd := if pandoraAddToCart soup then some true else st0
        if pandoraOutOfStock soup then some false else withAdd
      else st0
    let st2 := if st1 == some false && p.isSome then some true else st1
    ⟨t, p, st2⟩

/-! ## Rossmann scraper (src/scraper.py lines 535-655) -/

/-- Rossmann title candidates (src/scraper.py lines 554-570). -/
def rossmannTitleCands (soup : Document) : Option (Option String) :=
  (firstElem
    [soup.sel "h1.product-name", soup.sel "h1.product-title",
     soup.sel "h1.pdp-title", soup.sel "div.product-title",
     soup.sel "h1[itemprop=\"name\"]",
     soup.sel "meta[property=\"og:title\"]"]).map
    (fun e => if e.isMeta then e.content else some (pyStrip e.text))

/-- One script of the Rossmann JSON-LD loop (src/scraper.py lines
572-589).  The per-script handler catches JSONDecodeError, TypeError and
ValueError, so a failing `float` or a bad availability shape keeps the
mutations already made (title, possibly price) and moves to the next
script; the boolean records whether the loop breaks.  Non-string `name`
values are not modelled (the source would return them verbatim; no claim
reaches them). -/
def rossmannJsonStep (j : Json)
    (st : Option String × Option ℚ × Option Bool) :
    (Option String × Option ℚ × Option Bool) × Bool :=
  match j with
  | Json.obj _ =>
    let nameTruthy :=
      match jget j "name" with
      | some v => pyTruthy v
      | none => false
    if isStrEq (jget j "@type") "Product" && nameTruthy then
      let title1 :=
        match jget j "name" with
        | some (Json.str s) => some s
        | _ => st.1
      match jget j "offers" with
      | some offers =>
        if pyTruthy offers then
          match offers with
          | Json.obj _ =>
            let priceStep :
                (Option ℚ × Option Bool) × Bool :=
              match jget offers "price" with
              | some p =>
                if pyTruthy p then
                  match pyFloatOfJson p with
                  | some q => ((some q, st.2.2), true)
                  | none => ((st.2.1, st.2.2), false)
                else ((st.2.1, st.2.2), true)
              | none => ((st.2.1, st.2.2), true)
            match priceStep with
            | ((price1, stock0), cont) =>
              if cont then
                match jget offers "availability" with
                | some av =>
                  if pyTruthy av then
                    match pyIn "InStock" av with
                    | .ok b => ((title1, price1, some b), true)
                    | .error _ => ((title1, price1, stock0), false)
                  else ((title1, price1, stock0), true)
                | none => ((title1, price1, stock0), true)
              else ((title1, price1, stock0), false)
          | _ => ((title1, st.2.1, st.2.2), true)
        else ((title1, st.2.1, st.2.2), true)
      | none => ((title1, st.2.1, st.2.2), true)
    else (st, false)
  | _ => (st, false)

/-- The Rossmann JSON-LD loop over all script blocks. -/
def rossmannJsonLoop : List (Option Json) →
    (Option String × Option ℚ × Option Bool) →
    (Option String × Option ℚ × Option Bool)
  | [], st => st
  | none :: rest, st => rossmannJsonLoop rest st
  | some j :: rest, st =>
    match rossmannJsonStep j st with
    | (st2, brk) => if brk then st2 else rossmannJsonLoop rest st2

/-- Enabled add-to-cart button test of the Rossmann stock block
(src/scraper.py lines 620-633). -/
def rossmannAddToCart (soup : Document) : Bool :=
  ["button.add-to-cart", "button.btn-cart", "button[id*=\"add-to-cart\"]",
   "button.btn-add-to-basket", "button.add-to-basket"].any
    (fun s =>
      match soup.sel s with
      | some b => !b.disabled
      | none => false)

/-- Out-of-stock message test of the Rossmann stock block
(src/scraper.py lines 635-646), ranging over
`soup.select(".availability, .stock-status, .product-availability")`. -/
def rossmannOutOfStock (soup : Document) : Bool :=
  (soup.selAll ".availability, .stock-status, .product-availability").any
    (fun e =>
      ["out of stock", "tükendi", "stokta yok",
       "ürün geçici olarak temin edilemiyor"].any
        (fun ind => strContains (strLower e.text) ind))

/-- ProductScraper._scrape_rossmann (src/scraper.py lines 535-655). -/
def scrape_rossmann (soup : Document) (url : String) : ProductInfo :=
  let t0 :=
    match rossmannTitleCands soup with
    | some t => t
    | none => none
  match rossmannJsonLoop soup.scripts (t0, none, some false) with
  | (t1, p1, st0) =>
    let p2 :=
      match p1 with
      | none =>
        tlPriceCands
          [soup.sel ".price-container .price", soup.sel ".product-price",
           soup.sel ".price-box .price", soup.sel "[itemprop=\"price\"]",
           soup.sel ".product-detail-price",
           soup.sel "meta[property=\"product:price:amount\"]"]
      | some q => some q
    let st2 :=
      if st0 == some false then
        let withAdd := if rossmannAddToCart soup then some true else st0
        let afterOos := if rossmannOutOfStock soup then some false else withAdd
        if afterOos == some false && p2.isSome then some true else afterOos
      else st0
    ⟨t1, p2, st2⟩

/-! ## Generic scraper (src/scraper.py lines 657-895) -/

/-- Is the JSON value a dict with @type "Product"? -/
def isProductObj (j : Json) : Bool :=
  match j with
  | Json.obj _ => isStrEq (jget j "@type") "Product"
  | _ => false

/-- `any(item.get("@type") == "Product" for item in graph)` with its
short-circuit order: a non-dict item reached before a match raises an
AttributeError (src/scraper.py line 684), caught at the script level. -/
def graphAnyProduct : List Json → Except Unit Bool
  | [] => .ok false
  | it :: rest =>
    match it with
    | Json.obj _ =>
      if isStrEq (jget it "@type") "Product" then .ok true
      else graphAnyProduct rest
    | _ => .error ()

/-- One script of the generic JSON-LD scan (src/scraper.py lines
678-693).  A dict that is a Product, or carries a @graph list containing
one, is kept and breaks the loop; a top-level list is scanned for a
Product dict, which is kept but — as in the source, which has no outer
break there — does not stop the scan. -/
def genericScanStep (j : Json) (acc : Option Json) :
    Except Unit (Option Json × Bool) :=
  match j with
  | Json.obj _ =>
    if isStrEq (jget j "@type") "Product" then .ok (some j, true)
    else
      match jget j "@graph" with
      | some (Json.arr items) => do
        let b ← graphAnyProduct items
        if b then pure (some j, true) else pure (acc, false)
      | _ => .ok (acc, false)
  | Json.arr items =>
    match items.find? isProductObj with
    | some it => .ok (some it, false)
    | none => .ok (acc, false)
  | _ => .ok (acc, false)

/-- The generic JSON-LD scan over all script blocks; parse failures and
AttributeErrors skip the block. -/
def genericScan : List (Option Json) → Option Json → Option Json
  | [], acc => acc
  | none :: rest, acc => genericScan rest acc
  | some j :: rest, acc =>
    match genericScanStep j acc with
    | .error _ => genericScan rest acc
    | .ok (acc2, brk) => if brk then acc2 else genericScan rest acc2

/-- Re-extraction of the Product entity from a kept @graph container
(src/scraper.py lines 700-704); iterating a non-iterable @graph value
raises. -/
def genericResolveGraph (jd : Json) : Except Unit Json :=
  match jd with
  | Json.obj kvs =>
    if kvs.any (fun p => p.1 == "@graph") then
      match jget jd "@graph" with
      | some (Json.arr items) => .ok ((items.find? isProductObj).getD jd)
      | some (Json.str _) => .ok jd
      | some (Json.obj _) => .ok jd
      | _ => .error ()
    else .ok jd
  | _ => .ok jd

/-- The schema `name` field as the title (src/scraper.py lines 707-708).
A truthy non-string name would be assigned and then crash at the title
cleanup (line 889, `.split()` on a non-string); the model raises at the
assignment, which yields the same overall outcome. -/
def genericNameField (jd : Json) : Except Unit (Option String) :=
  match jget jd "name" with
  | some (Json.str s) => if s != "" then .ok (some s) else .ok none
  | some v => if pyTruthy v then .error () else .ok none
  | none => .ok none

/-- Price and availability from a dict offer (src/scraper.py lines
711-726): a directly parseable price is used, else the normalizer on its
string form; `offers.get("availability", "").lower()` raises on a
non-string value, and an empty availability leaves the stock field
untouched (second component `none`). -/
def genericOfferExtract (offers : Json) :
    Except Unit (Option ℚ × Option Bool) := do
  let price :=
    match jget offers "price" with
    | some p =>
      if pyTruthy p then
        match pyFloatOfJson p with
        | some q => some q
        | none => clean_price (jsonToPyStr p)
      else none
    | none => none
  let stock ←
    match jget offers "availability" with
    | some (Json.str s) =>
      let av := strLower s
      if av != "" then
        pure (some (strContains av "instock" || strContains av "in stock"))
      else pure (none : Option Bool)
    | some _ => .error ()
    | none => pure (none : Option Bool)
  pure (price, stock)

/-- Offers dispatch of the generic scraper (src/scraper.py lines
711-741): a dict offer directly, or the first entry of a non-empty offer
list when that entry is a dict. -/
def genericOffers (jd : Json) : Except Unit (Option ℚ × Option Bool) :=
  match jget jd "offers" with
  | some (Json.obj kvs) => genericOfferExtract (Json.obj kvs)
  | some (Json.arr (o :: _)) =>
    match o with
    | Json.obj kvs => genericOfferExtract (Json.obj kvs)
    | _ => pure (none, none)
  | _ => pure (none, none)

/-- Generic DOM title candidates (src/scraper.py lines 745-757): first
candidate with non-empty stripped text wins. -/
def genericTitleCandsGo : List (Option Element) → Option String
  | [] => none
  | none :: rest => genericTitleCandsGo rest
  | some e :: rest =>
    if pyStrip e.text != "" then some (pyStrip e.text)
    else genericTitleCandsGo rest

/-- The generic DOM title candidate list. -/
def genericTitleCands (soup : Document) : Option String :=
  genericTitleCandsGo
    [soup.sel "h1", soup.sel "[class*=\"title\" i]",
     soup.sel "[class*=\"product-name\" i]",
     soup.sel "[class*=\"product\" i]", soup.sel "title"]

/-- Pandora-site URL name used by the generic scraper (src/scraper.py
lines 766-773): the path segment before the first `.html` segment at
index `i > 0`, hyphens and underscores to spaces, capitalized. -/
def genericPandoraNameAux : String → List String → Option String
  | prev, q :: rest =>
    if strEndsWith q ".html" then
      some (pyCapitalize (mapChar '_' ' ' (mapChar '-' ' ' prev)))
    else genericPandoraNameAux q rest
  | _, [] => none

/-- URL-derived fallback title of the generic scraper (src/scraper.py
lines 759-790). -/
def genericUrlTitle (url : String) : Option String :=
  let parts := strSplit (pyUrlPath url) '/'
  if strContains (strLower url) "pandora.net" then
    match
      (match parts with
       | p :: rest => genericPandoraNameAux p rest
       | [] => none) with
    | some t => some t
    | none =>
      match parts.reverse.find? (fun part => strEndsWith part ".html") with
      | some part => some ("Pandora " ++ (strSplit part '.').headD "")
      | none => none
  else
    match parts.reverse.find?
        (fun part => part != "" && part != ".html" && part != ".htm") with
    | some part => some (pyCapitalize (mapChar '_' ' ' (mapChar '-' ' ' part)))
    | none => none

/-- Meta price tags of the generic scraper (src/scraper.py lines
794-807): first tag with a truthy `content` whose normalization succeeds
wins. -/
def genericMetaPriceGo : List (Option Element) → Option ℚ
  | [] => none
  | none :: rest => genericMetaPriceGo rest
  | some tag :: rest =>
    match tag.content with
    | some c =>
      if c != "" then
        match clean_price c with
        | some q => some q
        | none => genericMetaPriceGo rest
      else genericMetaPriceGo rest
    | none => genericMetaPriceGo rest

/-- The generic meta price tag list. -/
def genericMetaPrice (soup : Document) : Option ℚ :=
  genericMetaPriceGo
    [soup.sel "meta[property=\"product:price:amount\"]",
     soup.sel "meta[property=\"og:price:amount\"]",
     soup.sel "meta[itemprop=\"price\"]"]

/-- Generic DOM price candidates (src/scraper.py lines 810-831): a
truthy `content` attribute is preferred over the element text; the first
successful normalization wins. -/
def genericPriceCandsGo : List (Option Element) → Option ℚ
  | [] => none
  | none :: rest => genericPriceCandsGo rest
  | some e :: rest =>
    let ptext :=
      match e.content with
      | some c => if c != "" then c else e.text
      | none => e.text
    if ptext == "" then genericPriceCandsGo rest
    else
      match clean_price ptext with
      | some q => some q
      | none => genericPriceCandsGo rest

/-- The generic DOM price candidate list. -/
def genericPriceCands (soup : Document) : Option ℚ :=
  genericPriceCandsGo
    [soup.sel
      "[class*=\"price\" i]:not([class*=\"old\" i]):not([class*=\"regular\" i])",
     soup.sel "[id*=\"price\" i]",
     soup.sel "[class*=\"current\" i][class*=\"price\" i]",
     soup.sel "[itemprop=\"price\"]"]

/-- The out-of-stock phrase list of the generic scraper (src/scraper.py
lines 836-844). -/
def genericOosPhrases : List String :=
  ["out of stock", "tükendi", "sold out", "stokta yok",
   "stokta bulunmamaktadır", "ürün geçici olarak temin edilemiyor",
   "şu an için temin edilemiyor"]

/-- The stock heuristics of the generic scraper (src/scraper.py lines
835-884): out-of-stock phrase in the page text or availability meta tag
forces false; otherwise an add-to-cart-like element (class/id substring
match or a button/link whose text contains "sepete ekle") forces true;
otherwise a parsed price implies true. -/
def genericStockHeuristic (soup : Document) (price : Option ℚ) : Bool :=
  let page := strLower soup.pageText
  let oos0 := genericOosPhrases.any (fun ind => strContains page ind)
  let availabilityMeta :=
    (soup.sel "meta[property=\"product:availability\"]").orElse
      (fun _ => soup.sel "meta[itemprop=\"availability\"]")
  let oos :=
    match availabilityMeta with
    | some m =>
      match m.content with
      | some c =>
        if c != "" then
          oos0 || strContains (strLower c) "outofstock" ||
            strContains (strLower c) "out of stock"
        else oos0
      | none => oos0
    | none => oos0
  let sepeteEkle := soup.buttonsAndLinks.any
    (fun b => b.text != "" && strContains (strLower b.text) "sepete ekle")
  let hasAddToCart :=
    [soup.sel "[class*=\"add-to-cart\" i]",
     soup.sel "[class*=\"addtocart\" i]",
     soup.sel "[class*=\"add-to-basket\" i]",
     soup.sel "[class*=\"addtobasket\" i]",
     soup.sel "[id*=\"add-to-cart\" i]",
     soup.sel "[id*=\"addtocart\" i]"].any Option.isSome || sepeteEkle
  if oos then false
  else if hasAddToCart then true
  else price.isSome

/-- ProductScraper._scrape_generic (src/scraper.py lines 657-895).  The
error case models an exception escaping the function (the source has no
surrounding handler here; get_product_info catches it).  Note the stock
heuristics run only under the guard
`"in_stock" not in result or result["in_stock"] is None` (line 834),
which the model renders as `st1.isNone`. -/
def scrape_generic (soup : Document) (url : String) :
    Except Unit ProductInfo := do
  let jd0 := genericScan soup.scripts none
  let (t1, p1, st1) ←
    match jd0 with
    | none =>
      pure ((none : Option String), (none : Option ℚ), (some false : Option Bool))
    | some jdRaw =>
      if pyTruthy jdRaw then do
        let jd ← genericResolveGraph jdRaw
        let t ← genericNameField jd
        let po ← genericOffers jd
        pure (t, po.1,
          match po.2 with
          | some b => (some b : Option Bool)
          | none => some false)
      else pure (none, none, some false)
  let t2 :=
    if (t1.getD "") == "" then
      match genericTitleCands soup with
      | some s => some s
      | none => genericUrlTitle url
    else t1
  let p2 :=
    if p1.isNone then
      match genericMetaPrice soup with
      | some q => some q
      | none => genericPriceCands soup
    else p1
  let st2 :=
    if st1.isNone then some (genericStockHeuristic soup p2) else st1
  let t3 :=
    match t2 with
    | some s =>
      if s != "" then
        let s1 := collapseWs s
        some (if s1.length > 200 then s1.take 197 ++ "..." else s1)
      else some s
    | none => none
  pure ⟨t3, p2, st2⟩

/-! ## Fetch layer and get_product_info (src/scraper.py lines 48-173) -/

/-- One HTTP response as observed by the source: the body text (for the
anti-bot check), the status (`raise_for_status`/truthiness), and the
parsed document. -/
structure Response where
  text : String
  ok : Bool
  doc : Document

/-- Outcome of one `session.get` call: a transport-level exception or a
response. -/
inductive NetResult where
  | raise
  | resp (r : Response)

/-- Session state threaded through a call: the current user-agent
header, the remaining random draws (indices into the user-agent pool),
the remaining network script (one entry consumed per GET), and the
user-agents of the requests issued so far. -/
structure SessSt where
  ua : String
  rand : List Nat
  net : List NetResult
  issued : List String

/-- `random.choice(self.user_agents)` for a given draw. -/
def uaChoice (n : Nat) : String :=
  userAgents.getD (n % userAgents.length) ""

/-- Consume one random draw and set the session user-agent
(`self.session.headers["User-Agent"] = random.choice(...)`). -/
def rotUA (st : SessSt) : SessSt :=
  { st with ua := uaChoice (st.rand.headD 0), rand := st.rand.tail }

/-- Issue one GET: consume one network-script entry (an exhausted script
counts as a transport failure) and record the user-agent of the issued
request. -/
def doGet (st : SessSt) : NetResult × SessSt :=
  match st.net with
  | [] => (NetResult.raise, { st with issued := st.issued ++ [st.ua] })
  | r :: rest =>
    (r, { st with net := rest, issued := st.issued ++ [st.ua] })

/-- The anti-bot body check (src/scraper.py line 103). -/
def captchaLike (text : String) : Bool :=
  strContains (strLower text) "captcha" ||
    strContains (strLower text) "robot"

/-- One attempt of the retry loop (src/scraper.py lines 86-118): rotate
the user-agent, GET; on an anti-bot body, rotate again and GET once
more; then `raise_for_status`.  `none` is an attempt-level
RequestException. -/
def attemptOnce (st : SessSt) : Option Response × SessSt :=
  let st1 := rotUA st
  match doGet st1 with
  | (NetResult.raise, st2) => (none, st2)
  | (NetResult.resp r, st2) =>
    if captchaLike r.text then
      let st3 := rotUA st2
      match doGet st3 with
      | (NetResult.raise, st4) => (none, st4)
      | (NetResult.resp r2, st4) =>
        if r2.ok then (some r2, st4) else (none, st4)
    else if r.ok then (some r, st2) else (none, st2)

/-- The retry loop (`for attempt in range(3)`): up to the given number
of attempts; exhaustion re-raises to the surrounding handlers. -/
def fetchTries : Nat → SessSt → Option Response × SessSt
  | 0, st => (none, st)
  | n + 1, st =>
    match attemptOnce st with
    | (some r, st2) => (some r, st2)
    | (none, st2) => fetchTries n st2

/-- The degraded fallback record for the generic store (src/scraper.py
lines 67-71). -/
def fallbackResult (url : String) : ProductInfo :=
  { title := some ("Ürün (" ++ lastSlashSeg url ++ ")"),
    price := none, in_stock := some true }

/-- The store-id dispatch chain together with the generic-store title
wrapper (src/scraper.py lines 129-155).  `ok none` is the
"no scraper implemented" branch; the error case is an exception escaping
a scraper body (only the generic scraper can raise). -/
def scrapeDispatch (store_id : String) (soup : Document) (url : String) :
    Except Unit (Option ProductInfo) :=
  if store_id == "trendyol" then .ok (some (scrape_trendyol soup url))
  else if store_id == "hepsiburada" then
    .ok (some (scrape_hepsiburada soup url))
  else if store_id == "n11" then .ok (some (scrape_n11 soup url))
  else if store_id == "amazon" then .ok (some (scrape_amazon soup url))
  else if store_id == "teknosa" then .ok (some (scrape_pandora soup url))
  else if store_id == "pandora" then .ok (some (scrape_pandora soup url))
  else if store_id == "rossmann" then .ok (some (scrape_rossmann soup url))
  else if store_id == GENERIC_STORE_ID then do
    let result ← scrape_generic soup url
    let fixedTitle :=
      if (result.title.getD "") == "" || (result.title.getD "").length < 3 then
        match soup.titleTag with
        | some title_tag =>
          if title_tag.text != "" then some (pyStrip title_tag.text)
          else result.title
        | none => result.title
      else result.title
    pure (some { result with title := fixedTitle })
  else .ok none

/-- ProductScraper.get_product_info (src/scraper.py lines 48-173),
returning the result together with the user-agents of the requests
issued.  The sleeps and the referer header have no observable effect on
the result and are omitted; the initial `random.choice` before the
registry lookup consumes one draw. -/
def get_product_info (store_id url : String) (rand : List Nat)
    (net : List NetResult) : Option ProductInfo × List String :=
  let st0 : SessSt :=
    { ua := uaChoice (rand.headD 0), rand := rand.tail,
      net := net, issued := [] }
  match STORES.find? (fun s => s.id == store_id) with
  | none => (none, [])
  | some _ =>
    match fetchTries 3 st0 with
    | (none, st) =>
      (if store_id == GENERIC_STORE_ID then some (fallbackResult url)
       else none, st.issued)
    | (some r, st) =>
      match scrapeDispatch store_id r.doc url with
      | .error _ =>
        (if store_id == GENERIC_STORE_ID then some (fallbackResult url)
         else none, st.issued)
      | .ok res => (res, st.issued)

/-! ## Concrete inputs used by the witnesses and counterexamples -/

/-- A page on which every query comes back empty. -/
def noDoc : Document :=
  { sel := fun _ => none, selAll := fun _ => [], scripts := [],
    pageText := "", buttonsAndLinks := [], titleTag := none }

/-- An empty, successfully fetched response. -/
def okResp : Response := { text := "", ok := true, doc := noDoc }

/-- A response whose body is an anti-bot challenge page. -/
def capResp : Response :=
  { text := "Please complete the captcha", ok := true, doc := noDoc }

/-- A page with no structured data whose only notable content is an
enabled add-to-cart button ("Sepete Ekle"). -/
def c4doc : Document :=
  { noDoc with buttonsAndLinks := [Element.mk "Sepete Ekle" none false false []] }

/-- A JSON-LD Product block with offer price "199.90" and the given
availability marker. -/
def c6Product (avail : String) : Json :=
  Json.obj
    [("@type", Json.str "Product"), ("name", Json.str "Widget"),
     ("offers", Json.obj
       [("price", Json.str "199.90"), ("availability", Json.str avail)])]

/-- A page whose only content is the `c6Product` structured-data block. -/
def c6doc : Document :=
  { noDoc with scripts := [some (c6Product "https://schema.org/InStock")] }

/-- The product URL of the path-derived-title scenario. -/
def c7url : String := "https://site.example/phone-case-black/p-123.html"

/-! ## Helper lemmas -/

theorem firstNumToken_none (l : List Char)
    (h : ∀ c ∈ l, c.isDigit = false) : firstNumToken l = none := by
  induction l with
  | nil => rfl
  | cons c cs ih =>
    have hc := h c (List.mem_cons_self ..)
    simp only [firstNumToken, hc]
    exact ih fun d hd => h d (List.mem_cons_of_mem _ hd)

theorem clean_price_no_digit (s : String)
    (h : ∀ c ∈ s.data, c.isDigit = false) : clean_price s = none := by
  unfold clean_price
  by_cases hs : s == ""
  · simp [hs]
  · simp only [hs, Bool.false_eq_true, if_false]
    have hnone : firstNumToken
        ((s.data.filter (fun c => c.isDigit || c == '.' || c == ',')
          |>.filter (fun c => c != '.')).map
          (fun c => if c == ',' then '.' else c)) = none := by
      apply firstNumToken_none
      intro c hc
      rcases List.mem_map.mp hc with ⟨d, hd, hdc⟩
      have hds : d ∈ s.data :=
        List.mem_of_mem_filter (List.mem_of_mem_filter hd)
      have hdig := h d hds
      by_cases hcomma : d == ','
      · subst hdc; simp [hcomma]
      · subst hdc; simp [hcomma, hdig]
    rw [hnone]

theorem listStarts_map (f : Char → Char) (p l : List Char)
    (h : listStarts p l = true) :
    listStarts (p.map f) (l.map f) = true := by
  induction p generalizing l with
  | nil => simp [listStarts]
  | cons a as ih =>
    cases l with
    | nil => simp [listStarts] at h
    | cons b bs =>
      simp only [listStarts, Bool.and_eq_true, beq_iff_eq] at h
      simp only [List.map_cons, listStarts, Bool.and_eq_true, beq_iff_eq]
      exact ⟨by rw [h.1], ih bs h.2⟩

theorem listInfix_map (f : Char → Char) (p l : List Char)
    (h : listInfix p l = true) :
    listInfix (p.map f) (l.map f) = true := by
  induction l with
  | nil =>
    cases p with
    | nil => simp [listInfix, listStarts]
    | cons a as => simp [listInfix, listStarts] at h
  | cons c cs ih =>
    simp only [listInfix, Bool.or_eq_true] at h
    simp only [List.map_cons, listInfix, Bool.or_eq_true]
    rcases h with h | h
    · exact Or.inl (listStarts_map f p (c :: cs) h)
    · exact Or.inr (ih h)

/-! ## Claim theorems -/

/-- C1, counterexample: the claim also asserts `clean_price "1234.56" =
1234.56`, but every dot is removed as a thousands separator, so the code
yields `123456`. -/
theorem c1_plain_decimal_counterexample :
    clean_price "1234.56" = some (123456 : ℚ) ∧
    clean_price "1234.56" ≠ some (1234.56 : ℚ) := by
  have h : clean_price "1234.56" = some ((↑(123456 : ℕ) : ℚ)) := rfl
  constructor
  · rw [h]; norm_num
  · rw [h]; simp only [ne_eq, Option.some.injEq]; norm_num

/-- C1, amended: the dotted-thousands/comma-decimal strings "1.234,56"
and "₺1.234,56" normalize to 1234.56; the plain dot-decimal string
"1234.56" normalizes to 123456 (every dot is dropped as a thousands
separator); the empty string and every digit-free string normalize to
None, never zero. -/
theorem c1_price_normalizer_amended :
    clean_price "1.234,56" = some (1234.56 : ℚ) ∧
    clean_price "₺1.234,56" = some (1234.56 : ℚ) ∧
    clean_price "1234.56" = some (123456 : ℚ) ∧
    clean_price "" = none ∧
    (∀ s : String, (∀ c ∈ s.data, c.isDigit = false) →
      clean_price s = none) := by
  refine ⟨?_, ?_, ?_, rfl, clean_price_no_digit⟩
  · rw [show clean_price "1.234,56" =
      some ((↑(1234 : ℕ) : ℚ) + (↑(56 : ℕ) : ℚ) / 10 ^ 2) from rfl]
    norm_num
  · rw [show clean_price "₺1.234,56" =
      some ((↑(1234 : ℕ) : ℚ) + (↑(56 : ℕ) : ℚ) / 10 ^ 2) from rfl]
    norm_num
  · rw [show clean_price "1234.56" = some ((↑(123456 : ℕ) : ℚ)) from rfl]
    norm_num

/-- C1, witness: the digit-free string "no price" normalizes to None. -/
theorem c1_price_normalizer_amended_witness :
    (∀ c ∈ ("no price".data), c.isDigit = false) ∧
    clean_price "no price" = none :=
  ⟨by decide, c1_price_normalizer_amended.2.2.2.2 "no price" (by decide)⟩

/-- C2: for every store_id that the registry lookup does not resolve,
get_product_info returns None and the list of issued requests is empty —
no GET is performed. -/
theorem c2_unknown_store_no_request (store_id url : String)
    (rand : List Nat) (net : List NetResult)
    (h : STORES.find? (fun s => s.id == store_id) = none) :
    get_product_info store_id url rand net = (none, []) := by
  unfold get_product_info
  rw [h]

/-- C2, witness: the unknown store id "ebay". -/
theorem c2_unknown_store_no_request_witness :
    STORES.find? (fun s => s.id == "ebay") = none ∧
    get_product_info "ebay" "https://site.example/p" [0] [] = (none, []) :=
  ⟨rfl, c2_unknown_store_no_request "ebay" "https://site.example/p" [0] [] rfl⟩

/-- C3: with three consecutive transport failures, every registered
store id yields the degraded fallback record (title "Ürün (last URL
segment)", price absent, in_stock true) when it is the generic store,
and None otherwise. -/
theorem c3_exhausted_retries_outcome (store_id url : String)
    (rand : List Nat) (h : store_id ∈ STORES.map Store.id) :
    (get_product_info store_id url rand
      [NetResult.raise, NetResult.raise, NetResult.raise]).1 =
    (if store_id == GENERIC_STORE_ID then some (fallbackResult url)
     else none) := by
  simp only [STORES, List.map, List.mem_cons, List.not_mem_nil,
    or_false] at h
  rcases h with rfl | rfl | rfl | rfl | rfl | rfl | rfl <;> rfl

/-- C3, witness: the generic store on a concrete URL receives the
degraded fallback record after three failures. -/
theorem c3_exhausted_retries_outcome_witness :
    "generic" ∈ STORES.map Store.id ∧
    (get_product_info "generic" "https://site.example/a/b" [0, 1, 2, 3]
      [NetResult.raise, NetResult.raise, NetResult.raise]).1 =
      some (fallbackResult "https://site.example/a/b") :=
  ⟨by decide, c3_exhausted_retries_outcome "generic"
    "https://site.example/a/b" [0, 1, 2, 3] (by decide)⟩

/-- C4: the claimed stock heuristics of the generic scraper never run.
On a page with no structured data and an enabled "Sepete Ekle"
add-to-cart button the code leaves in_stock false, although the
heuristic text of the guarded block (genericStockHeuristic, the faithful
rendering of src/scraper.py lines 835-884) would yield true: the guard
on line 834 tests `"in_stock" not in result or result["in_stock"] is
None`, which never holds because in_stock is initialized to False and
only ever reassigned booleans. -/
theorem c4_stock_heuristics_dead :
    scrape_generic c4doc "https://site.example/item" =
      .ok ⟨some "Item", none, some false⟩ ∧
    genericStockHeuristic c4doc none = true := ⟨rfl, rfl⟩

/-- C5, counterexample: a non-null get_product_info result whose title
is None — the trendyol scraper on a page where no title selector
matches. -/
theorem c5_title_none_counterexample :
    (get_product_info "trendyol" "https://site.example/p" [0, 0]
      [NetResult.resp okResp]).1 = some ⟨none, none, some false⟩ := rfl

/-- C5, amended: a non-null result carries a nullable title, a nullable
price and a boolean in_stock; a named-store extraction where no title
selector matches returns an absent (None) title, not a non-empty one. -/
theorem c5_nonnull_result_amended (soup : Document) (url : String)
    (h1 : soup.sel "h1.pr-new-br" = none)
    (h2 : soup.sel "h1.product-name" = none) :
    (scrape_trendyol soup url).title = none ∧
    (scrape_trendyol soup url).in_stock.isSome = true := by
  unfold scrape_trendyol
  rw [h1, h2]
  exact ⟨rfl, rfl⟩

/-- C5, witness: the empty page. -/
theorem c5_nonnull_result_amended_witness :
    (scrape_trendyol noDoc "https://site.example/p").title = none ∧
    (scrape_trendyol noDoc "https://site.example/p").in_stock.isSome = true :=
  c5_nonnull_result_amended noDoc "https://site.example/p" rfl rfl

/-- C6: on markup whose only content is a JSON-LD Product block with
offers.price "199.90" and an availability marker containing "InStock",
generic extraction returns price 199.90 and in_stock true — for every
selector oracle, in particular one where no DOM selector matches
anything. -/
theorem c6_structured_data_extraction (sel : String → Option Element)
    (selAll : String → List Element) (ptxt : String) (btns : List Element)
    (ttag : Option Element) (url avail : String)
    (hav : strContains avail "InStock" = true) :
    ∃ r, scrape_generic
        ⟨sel, selAll, [some (c6Product avail)], ptxt, btns, ttag⟩ url = .ok r ∧
      r.price = some (199.90 : ℚ) ∧ r.in_stock = some true := by
  have hne : avail.data ≠ [] := by
    intro h0
    have hv : listInfix "InStock".data avail.data = true := hav
    rw [h0] at hv
    exact absurd hv (by decide)
  have h1 : strContains (strLower avail) "instock" = true := by
    show listInfix "instock".data (avail.data.map Char.toLower) = true
    have he : "instock".data = "InStock".data.map Char.toLower := by decide
    rw [he]
    exact listInfix_map Char.toLower "InStock".data avail.data hav
  have h2 : (strLower avail != "") = true := by
    cases hd : avail.data with
    | nil => exact absurd hd hne
    | cons x xs =>
      unfold strLower
      rw [hd]
      simp only [List.map_cons, bne_iff_ne, ne_eq]
      intro hcontra
      have hdata := congrArg String.data hcontra
      simp at hdata
  have e4 : genericOffers (c6Product avail) =
      Except.ok (some ((↑(199 : ℕ) : ℚ) + (↑(90 : ℕ) : ℚ) / 10 ^ 2),
        some true) := by
    have estep : genericOfferExtract (Json.obj [("price", Json.str "199.90"),
        ("availability", Json.str avail)]) =
      (if (strLower avail != "") = true then
        pure (some ((↑(199 : ℕ) : ℚ) + (↑(90 : ℕ) : ℚ) / 10 ^ 2),
          some (strContains (strLower avail) "instock" ||
            strContains (strLower avail) "in stock"))
      else pure (some ((↑(199 : ℕ) : ℚ) + (↑(90 : ℕ) : ℚ) / 10 ^ 2),
        none)) := rfl
    show genericOfferExtract (Json.obj [("price", Json.str "199.90"),
      ("availability", Json.str avail)]) = _
    rw [estep, if_pos h2, h1]
    rfl
  have hbind : ∀ {α β : Type} (a : α) (f : α → Except Unit β),
      (Except.ok a >>= f) = f a := fun _ _ => rfl
  have hA : genericScan (Document.scripts
      ⟨sel, selAll, [some (c6Product avail)], ptxt, btns, ttag⟩) none =
      some (c6Product avail) := rfl
  have hB : pyTruthy (c6Product avail) = true := rfl
  have hC : genericResolveGraph (c6Product avail) =
      Except.ok (c6Product avail) := rfl
  have hD : genericNameField (c6Product avail) =
      Except.ok (some "Widget") := rfl
  refine ⟨⟨some "Widget",
    some ((↑(199 : ℕ) : ℚ) + (↑(90 : ℕ) : ℚ) / 10 ^ 2), some true⟩,
    ?_, by norm_num, rfl⟩
  unfold scrape_generic
  simp only [hA, hB, hC, hD, e4, hbind, if_true]
  rfl

/-- C6, witness: the availability marker "https://schema.org/InStock" on
the all-miss selector oracle. -/
theorem c6_structured_data_extraction_witness :
    ∃ r, scrape_generic c6doc "https://site.example/x" = .ok r ∧
      r.price = some (199.90 : ℚ) ∧ r.in_stock = some true :=
  c6_structured_data_extraction (fun _ => none) (fun _ => []) "" [] none
    "https://site.example/x" "https://schema.org/InStock" (by decide)

/-- C7, counterexample: on markup with no structured data and no
matching DOM selectors, the URL .../phone-case-black/p-123.html yields
the title "P 123.html" — the last path segment, not the claimed
"Phone Case Black" derived from the segment before it. -/
theorem c7_url_title_counterexample :
    scrape_generic noDoc c7url = .ok ⟨some "P 123.html", none, some false⟩ ∧
    ("P 123.html" : String) ≠ "Phone Case Black" := ⟨rfl, by decide⟩

/-- C7, amended: with no structured data and an all-miss selector
oracle, the URL .../phone-case-black/p-123.html yields the title
"P 123.html" (last non-empty path segment, hyphens and underscores
to spaces, first character capitalized and the rest lower-cased), price
absent and in_stock false. -/
theorem c7_url_title_amended (selAll : String → List Element)
    (ptxt : String) (btns : List Element) (ttag : Option Element)
    (sel : String → Option Element) (h : ∀ s, sel s = none) :
    scrape_generic ⟨sel, selAll, [], ptxt, btns, ttag⟩ c7url =
      .ok ⟨some "P 123.html", none, some false⟩ := by
  simp only [scrape_generic, genericTitleCands, genericMetaPrice,
    genericPriceCands, h]
  rfl

/-- C7, witness: the all-miss oracle instantiated. -/
theorem c7_url_title_amended_witness :
    scrape_generic ⟨fun _ => none, fun _ => [], [], "", [], none⟩ c7url =
      .ok ⟨some "P 123.html", none, some false⟩ :=
  c7_url_title_amended (fun _ => []) "" [] none (fun _ => none)
    (fun _ => rfl)

/-- C8, counterexample: on a first captcha response the retry draws a
fresh user-agent at random, which can coincide with the first one — with
the all-zero random stream both requests carry the same user-agent,
refuting "a different user-agent than the first". -/
theorem c8_same_user_agent_counterexample :
    (get_product_info "trendyol" "https://site.example/p" [0, 0, 0]
      [NetResult.resp capResp, NetResult.resp okResp]).2 =
      [uaChoice 0, uaChoice 0] := rfl

/-- C8, amended: for every first response whose body contains "captcha"
or "robot", the fetch loop issues exactly one additional request before
accepting the result, with a user-agent freshly drawn from the pool —
not necessarily different from the first. -/
theorem c8_antibot_retry_amended (url : String) (i j k : Nat)
    (r1 r2 : Response) (h1 : captchaLike r1.text = true)
    (h2 : r2.ok = true) :
    (get_product_info "trendyol" url [i, j, k]
      [NetResult.resp r1, NetResult.resp r2]).2 =
      [uaChoice j, uaChoice k] := by
  simp [get_product_info, fetchTries, attemptOnce, rotUA, doGet, h1, h2,
    STORES, scrapeDispatch]

/-- C8, witness: a captcha body followed by a clean response. -/
theorem c8_antibot_retry_amended_witness :
    captchaLike capResp.text = true ∧ okResp.ok = true ∧
    (get_product_info "trendyol" "https://site.example/p" [0, 1, 2]
      [NetResult.resp capResp, NetResult.resp okResp]).2 =
      [uaChoice 1, uaChoice 2] :=
  ⟨by decide, rfl, c8_antibot_retry_amended "https://site.example/p" 0 1 2
    capResp okResp (by decide) rfl⟩

/-- C9, counterexample: "mediamarkt" is registered in STORES, yet after
a successful fetch get_product_info returns None through the
"no scraper implemented" branch. -/
theorem c9_mediamarkt_counterexample :
    (STORES.find? (fun s => s.id == "mediamarkt")).isSome = true ∧
    (get_product_info "mediamarkt" "https://site.example/p" [0, 0]
      [NetResult.resp okResp]).1 = none := ⟨rfl, rfl⟩

/-- C9, amended: every registered store id except "mediamarkt" resolves
to a scraper routine after a successful fetch (the result is non-null);
"mediamarkt" alone is registered without a dispatch branch. -/
theorem c9_dispatch_amended (store_id url : String) (rand : List Nat)
    (r : Response) (h : store_id ∈ STORES.map Store.id)
    (hm : store_id ≠ "mediamarkt") (hc : captchaLike r.text = false)
    (hok : r.ok = true) :
    (get_product_info store_id url rand [NetResult.resp r]).1.isSome =
      true := by
  simp only [STORES, List.map, List.mem_cons, List.not_mem_nil,
    or_false] at h
  rcases h with rfl | rfl | rfl | rfl | rfl | rfl | rfl
  · simp [get_product_info, fetchTries, attemptOnce, rotUA, doGet, hc, hok,
      STORES, scrapeDispatch]
  · simp [get_product_info, fetchTries, attemptOnce, rotUA, doGet, hc, hok,
      STORES, scrapeDispatch]
  · simp [get_product_info, fetchTries, attemptOnce, rotUA, doGet, hc, hok,
      STORES, scrapeDispatch]
  · simp [get_product_info, fetchTries, attemptOnce, rotUA, doGet, hc, hok,
      STORES, scrapeDispatch]
  · simp [get_product_info, fetchTries, attemptOnce, rotUA, doGet, hc, hok,
      STORES, scrapeDispatch]
  · exact absurd rfl hm
  · cases hg : scrape_generic r.doc url with
    | error e =>
      simp [get_product_info, fetchTries, attemptOnce, rotUA, doGet, hc,
        hok, STORES, scrapeDispatch, GENERIC_STORE_ID, hg]
    | ok res =>
      simp [get_product_info, fetchTries, attemptOnce, rotUA, doGet, hc,
        hok, STORES, scrapeDispatch, GENERIC_STORE_ID, hg]

/-- C9, witness: the registered id "trendyol" after a clean fetch. -/
theorem c9_dispatch_amended_witness :
    ("trendyol" ∈ STORES.map Store.id) ∧
    (get_product_info "trendyol" "https://site.example/p" [0, 0]
      [NetResult.resp okResp]).1.isSome = true :=
  ⟨by decide, c9_dispatch_amended "trendyol" "https://site.example/p"
    [0, 0] okResp (by decide) (by decide) rfl rfl⟩

/-- C10: the dispatch chain sends the store id "teknosa" to the Pandora
per-site routine, so Teknosa extraction coincides with the "pandora"
dispatch branch on the same parsed page and URL. -/
theorem c10_teknosa_pandora_dispatch (soup : Document) (url : String) :
    scrapeDispatch "teknosa" soup url =
      .ok (some (scrape_pandora soup url)) ∧
    scrapeDispatch "teknosa" soup url = scrapeDispatch "pandora" soup url :=
  ⟨rfl, rfl⟩

/-- C10, witness: the empty page. -/
theorem c10_teknosa_pandora_dispatch_witness :
    scrapeDispatch "teknosa" noDoc "https://site.example/p" =
      .ok (some (scrape_pandora noDoc "https://site.example/p")) ∧
    scrapeDispatch "teknosa" noDoc "https://site.example/p" =
      scrapeDispatch "pandora" noDoc "https://site.example/p" :=
  c10_teknosa_pandora_dispatch noDoc "https://site.example/p"
